import Mathlib

/-!
Verification of the Blue Square (Base Quest) mini-app core logic.

The definitions below are shallow embeddings of the TypeScript source:
the activity scan merge pipeline (`src/app/api/activity` route), the quest
progress engine (`quest-service`), the reward redemption route
(`reward-service` plus the rewards API route), the notification broadcaster
(`notification-client`), the lifecycle webhook (`webhook` route) and the
combined-points reader (`firebase-service` / `notification-service`).
JavaScript numbers that hold integral data are modelled as `Int` (or `Nat`
for counts), Firestore documents as explicit records, external calls as
explicit parameters (`Option` / `Except`).
-/

namespace BlueSquare

/-- Activity kinds, from the `type` union in the activity route. -/
inductive ActivityType
  | token_transfer
  | nft_transfer
  | contract_interaction
  | swap
  | stake
  | mint
  deriving DecidableEq, Repr

/-- Transfer direction. -/
inductive Direction
  | inbound
  | outbound
  deriving DecidableEq, Repr

/-- `Activity`, the stored per-transfer record (`ActivityData` in the route,
`Activity` in `firebase-service`). Timestamps are epoch milliseconds. -/
structure Activity where
  id : String
  type : ActivityType
  description : String
  timestamp : Int
  points : Int
  hash : String
  direction : Direction
  asset : Option String
  tokenId : Option String
  deriving DecidableEq, Repr

/-- `POINTS_MAP` from the activity route. -/
def POINTS_MAP : ActivityType → Int
  | .token_transfer => 10
  | .nft_transfer => 25
  | .contract_interaction => 15
  | .swap => 30
  | .stake => 20
  | .mint => 35

/-- `getLevelFromPoints` in the activity route (the Diamond/Platinum label set). -/
def getLevelFromPoints (points : Int) : String :=
  if points ≥ 1000 then "Diamond"
  else if points ≥ 500 then "Platinum"
  else if points ≥ 200 then "Gold"
  else if points ≥ 100 then "Silver"
  else if points ≥ 50 then "Bronze"
  else "Newbie"

/-- The combined-points label chain used in `firebase-service`
(`getCombinedPoints`, `addUserActivity`, `getLeaderboard`):
the Diamond Hands/Whale label set. -/
def levelLabelCombined (points : Int) : String :=
  if points ≥ 1000 then "Diamond Hands"
  else if points ≥ 500 then "Whale"
  else if points ≥ 200 then "DeFi Master"
  else if points ≥ 100 then "Crypto Native"
  else if points ≥ 50 then "HODLer"
  else "Newbie"

/-- The duplicate test from the scan route's `filter`/`findIndex`:
for element `x` under test against earlier element `b`, NFT transfers
compare `(hash, direction, asset, tokenId)` when both records are NFT
transfers and `(hash, direction)` otherwise. -/
def matchKey (x b : Activity) : Bool :=
  if x.type = ActivityType.nft_transfer ∧ b.type = ActivityType.nft_transfer then
    b.hash = x.hash ∧ b.direction = x.direction ∧ b.asset = x.asset ∧
      b.tokenId = x.tokenId
  else
    decide (b.hash = x.hash ∧ b.direction = x.direction)

/-- `x` is matched by some element of `seen`. -/
def matchedBy (seen : List Activity) (x : Activity) : Bool :=
  seen.any (fun b => matchKey x b)

/-- The route's dedup keeps an element exactly when no element earlier in
the whole concatenated list (kept or not) matches it; `seen` accumulates
every element already walked past. -/
def dedupFrom (seen : List Activity) : List Activity → List Activity
  | [] => []
  | a :: l =>
    if matchedBy seen a then dedupFrom (seen ++ [a]) l
    else a :: dedupFrom (seen ++ [a]) l

/-- `allActivities.filter((activity, index, self) => index === self.findIndex ...)`. -/
def dedupActivities (l : List Activity) : List Activity :=
  dedupFrom [] l

/-- Insert into a descending-by-timestamp list, after every earlier element
with a greater-or-equal timestamp (the stable placement used by
`Array.prototype.sort` with comparator `(a, b) => b.timestamp - a.timestamp`). -/
def insertTs (a : Activity) : List Activity → List Activity
  | [] => [a]
  | b :: l => if b.timestamp > a.timestamp then b :: insertTs a l else a :: b :: l

/-- Stable sort, descending by timestamp: extensionally the JS
`uniqueActivities.sort((a, b) => b.timestamp - a.timestamp)`. -/
def sortDesc : List Activity → List Activity
  | [] => []
  | a :: l => insertTs a (sortDesc l)

/-- `reduce((sum, activity) => sum + activity.points, 0)`. -/
def sumPoints (l : List Activity) : Int :=
  l.foldr (fun a s => a.points + s) 0

/-- The user activity document as rewritten by the scan merge branch. -/
structure ScanRecord where
  activities : List Activity
  totalPoints : Int
  combinedPoints : Int
  level : String
  deriving DecidableEq, Repr

/-- The merge-and-persist step of the scan route: concatenate new activities
with stored history, dedup, sort descending by timestamp, recompute
`totalPoints`, `combinedPoints` and `level`. -/
def scanMergeRecord (newActivities stored : List Activity) (questPoints : Int) :
    ScanRecord :=
  let uniqueActivities := sortDesc (dedupActivities (newActivities ++ stored))
  let totalPoints := sumPoints uniqueActivities
  { activities := uniqueActivities
    totalPoints := totalPoints
    combinedPoints := totalPoints + questPoints
    level := getLevelFromPoints (totalPoints + questPoints) }

/-- The `users` document as touched by `addUserActivity` in `firebase-service`. -/
structure StoredUser where
  address : String
  activities : List Activity
  totalPoints : Int
  combinedPoints : Int
  level : String
  deriving DecidableEq, Repr

/-- `addUserActivity`: unshift the new activity, keep only the first 100
(`splice(100)`), add the new activity's points to the running total, and
recompute the combined level. The quest points read is a parameter. -/
def addUserActivity (stored : Option StoredUser) (address : String)
    (activity : Activity) (questPoints : Int) : StoredUser :=
  match stored with
  | some data =>
    let totalPoints := data.totalPoints + activity.points
    let activities := (activity :: data.activities).take 100
    let combinedPoints := totalPoints + questPoints
    { address := data.address
      activities := activities
      totalPoints := totalPoints
      combinedPoints := combinedPoints
      level := levelLabelCombined combinedPoints }
  | none =>
    { address := address
      activities := [activity]
      totalPoints := activity.points
      combinedPoints := activity.points
      level := "Newbie" }

/-- One raw Alchemy transfer record; `blockNum` is modelled as the already
hex-parsed block number. -/
structure Transfer where
  category : String
  asset : Option String
  toAddr : Option String
  hash : String
  blockNum : Int
  tokenId : Option String
  deriving DecidableEq, Repr

/-- `pat` begins `s` (character-list helper for `String.includes`). -/
def leadsChars : List Char → List Char → Bool
  | [], _ => true
  | _ :: _, [] => false
  | a :: as, b :: bs => a = b && leadsChars as bs

/-- `pat` occurs somewhere in `s` (character-list helper). -/
def containsChars (pat : List Char) : List Char → Bool
  | [] => pat.isEmpty
  | l@(_ :: rest) => leadsChars pat l || containsChars pat rest

/-- JS `s.includes(pat)`. -/
def strIncludes (s pat : String) : Bool :=
  containsChars pat.toList s.toList

/-- `categorizeTransaction` from the activity route. -/
def categorizeTransaction (transfer : Transfer) : ActivityType :=
  if transfer.category = "erc721" ∨ transfer.category = "erc1155" then
    ActivityType.nft_transfer
  else if transfer.category = "erc20" then
    match transfer.toAddr with
    | some toRaw =>
      let toAddress := toRaw.toLower
      if strIncludes toAddress "uniswap" || strIncludes toAddress "sushiswap" ||
          strIncludes toAddress "pancakeswap" ||
          strIncludes toAddress "0x7a250d5630b4cf539739df2c5dacb4c659f2488d" then
        ActivityType.swap
      else ActivityType.token_transfer
    | none => ActivityType.token_transfer
  else if transfer.category = "external" ∨ transfer.category = "internal" then
    match transfer.toAddr with
    | some toRaw =>
      let toAddress := toRaw.toLower
      if strIncludes toAddress "stake" || strIncludes toAddress "validator" ||
          strIncludes toAddress "0x00000000219ab540356cbb839cbe05303d7705fa" then
        ActivityType.stake
      else ActivityType.contract_interaction
    | none => ActivityType.mint
  else ActivityType.contract_interaction

/-- `createActivityDescription`; `asset || 'tokens'` treats the empty string
as falsy. -/
def createActivityDescription (transfer : Transfer) (type : ActivityType) : String :=
  let assetOr := fun (d : String) =>
    match transfer.asset with
    | some a => if a = "" then d else a
    | none => d
  match type with
  | .token_transfer => assetOr "tokens"
  | .nft_transfer => assetOr "NFT"
  | .swap => "tokens via DEX"
  | .stake => "tokens to staking"
  | .mint => "new token/NFT"
  | .contract_interaction => "smart contract"

/-- `capitalizeFirstLetter`. -/
def capitalizeFirstLetter (s : String) : String :=
  if s = "" then s else (s.take 1).toUpper ++ (s.drop 1).toLower

/-- One transfer processed by `performBlockchainScan`: classify, score with
`POINTS_MAP`, build the description (the best-effort NFT collection-name
lookup result is a parameter). -/
def processTransfer (nftName : Option String) (transfer : Transfer)
    (direction : Direction) : Activity :=
  let type := categorizeTransaction transfer
  let points := POINTS_MAP type
  let base := capitalizeFirstLetter (createActivityDescription transfer type)
  let description :=
    if type = ActivityType.nft_transfer then
      match nftName with
      | some n => n
      | none => base
    else base
  { id := transfer.hash
    type := type
    description := description
    timestamp := transfer.blockNum * 1000
    points := points
    hash := transfer.hash
    direction := direction
    asset := transfer.asset
    tokenId := transfer.tokenId }

/-! ### Quest progress engine (`quest-service`) -/

inductive QuestType
  | early_adopter
  | activity_based
  | streak_based
  | share_based
  deriving DecidableEq, Repr

structure QuestRequirements where
  dailyLogins : Option Int := none
  targetDate : Option Int := none
  activityCount : Option Int := none
  streakDays : Option Int := none
  shareCount : Option Int := none
  dailyShareLimit : Option Int := none
  deriving DecidableEq, Repr

structure Quest where
  id : String
  type : QuestType
  requirements : QuestRequirements
  rewardsPoints : Int
  isActive : Bool
  deriving DecidableEq, Repr

structure DailyShare where
  date : String
  count : Int
  deriving DecidableEq, Repr

structure UserQuest where
  userId : String
  questId : String
  progress : Int
  isCompleted : Bool
  completedAt : Option Int := none
  startedAt : Int
  lastUpdated : Int
  dailyShares : List DailyShare := []
  deriving DecidableEq, Repr

structure UserQuestData where
  userId : String
  quests : List UserQuest
  dailyLoginStreak : Int
  lastLoginDate : String
  totalQuestsCompleted : Int
  totalQuestPoints : Int
  deriving DecidableEq, Repr

/-- JS `x || d` on an optional number (`0` is falsy). -/
def jsOr (v : Option Int) (d : Int) : Int :=
  match v with
  | some n => if n = 0 then d else n
  | none => d

/-- `initializeUserQuestData`: one zero-progress entry per catalog quest. -/
def initializeUserQuestData (catalog : List Quest) (userId : String)
    (today : String) (now : Int) : UserQuestData :=
  { userId := userId
    quests := catalog.map (fun quest =>
      { userId := userId
        questId := quest.id
        progress := 0
        isCompleted := false
        completedAt := none
        startedAt := now
        lastUpdated := now
        dailyShares := [] })
    dailyLoginStreak := 0
    lastLoginDate := today
    totalQuestsCompleted := 0
    totalQuestPoints := 0 }

/-- `quests[questIndex] = updatedQuest`: replace the first entry matching
`findIndex`'s predicate. -/
def setFirstQuest (questId : String) (updated : UserQuest) :
    List UserQuest → List UserQuest
  | [] => []
  | q :: l =>
    if q.questId = questId then updated :: l
    else q :: setFirstQuest questId updated l

/-- `checkAndUpdateQuestProgress`: look up the user's entry and the quest
definition (the catalog parameter stands for `getQuestsFromFirebase`, which
returns active quests), decide completion, rebuild the entry, and bump the
aggregates on a fresh completion. The rebuilt entry object carries
`completedAt` only under the source's two spread conditions and carries no
`dailyShares` field (read back as `[]`). -/
def checkAndUpdateQuestProgress (catalog : List Quest) (now : Int)
    (dataOpt : Option UserQuestData) (questId : String) (progress : Int) :
    Option UserQuestData :=
  match dataOpt with
  | none => none
  | some data =>
    match data.quests.find? (fun q => q.questId = questId) with
    | none => some data
    | some quest =>
      match catalog.find? (fun q => q.id = questId) with
      | none => some data
      | some questDefinition =>
        let requirementMet : Bool :=
          match questDefinition.type with
          | .streak_based => progress ≥ jsOr questDefinition.requirements.streakDays 0
          | .activity_based => progress ≥ jsOr questDefinition.requirements.activityCount 0
          | .early_adopter =>
            match questDefinition.requirements.targetDate with
            | some t => now ≤ t
            | none => false
          | .share_based => false
        let isCompleted := quest.isCompleted || requirementMet
        let newProgress :=
          if ¬quest.isCompleted ∧ questDefinition.type = QuestType.early_adopter ∧
              requirementMet then (1 : Int)
          else progress
        let completedAt :=
          if isCompleted ∧ ¬quest.isCompleted then some now
          else if quest.completedAt.isSome ∧ ¬isCompleted then quest.completedAt
          else none
        let updatedQuest : UserQuest :=
          { userId := quest.userId
            questId := quest.questId
            progress := newProgress
            isCompleted := isCompleted
            startedAt := quest.startedAt
            lastUpdated := now
            completedAt := completedAt
            dailyShares := [] }
        let newlyCompleted := isCompleted ∧ ¬quest.isCompleted
        some { data with
          quests := setFirstQuest questId updatedQuest data.quests
          totalQuestPoints :=
            if newlyCompleted then data.totalQuestPoints + questDefinition.rewardsPoints
            else data.totalQuestPoints
          totalQuestsCompleted :=
            if newlyCompleted then data.totalQuestsCompleted + 1
            else data.totalQuestsCompleted }

/-- The streak branch of `updateDailyLoginStreak`, named for reuse in
statements: same day keeps the streak unless it is 0 (then 1), yesterday
increments, any other gap resets to 1. -/
def nextStreak (lastLoginDate today yesterday : String) (streak : Int) : Int :=
  if lastLoginDate = today then
    if streak = 0 then 1 else streak
  else if lastLoginDate = yesterday then streak + 1
  else 1

/-- `updateDailyLoginStreak`: compute the new streak from `lastLoginDate`
against today's date, persist it, then re-evaluate the first active
streak-based quest with the new streak (returned as the second component:
quest id and the progress value passed on). Missing user data is
initialized and the call returns without re-evaluation. -/
def updateDailyLoginStreak (catalog : List Quest) (userId today yesterday : String)
    (now : Int) (dataOpt : Option UserQuestData) :
    UserQuestData × Option (String × Int) :=
  match dataOpt with
  | none => (initializeUserQuestData catalog userId today now, none)
  | some data =>
    let streak := nextStreak data.lastLoginDate today yesterday data.dailyLoginStreak
    let d1 := { data with dailyLoginStreak := streak, lastLoginDate := today }
    match catalog.find? (fun q => decide (q.type = QuestType.streak_based) && q.isActive) with
    | some streakQuest =>
      ((checkAndUpdateQuestProgress catalog now (some d1) streakQuest.id streak).getD d1,
        some (streakQuest.id, streak))
    | none => (d1, none)

/-- `canShareToday`: remaining-today check against `dailyShareLimit`. -/
def canShareToday (userQuest : UserQuest) (quest : Quest) (today : String) :
    Bool × Int × Int :=
  let dailyLimit := jsOr quest.requirements.dailyShareLimit 0
  if dailyLimit ≤ 0 then (true, 0, 0)
  else
    let sharesUsedToday :=
      ((userQuest.dailyShares.find? (fun ds => ds.date = today)).map (fun ds => ds.count)).getD 0
    (sharesUsedToday < dailyLimit, sharesUsedToday, dailyLimit)

/-- The result object of `completeShareQuest` (optional fields as options). -/
structure ShareResult where
  success : Bool
  message : String
  pointsEarned : Option Int := none
  dailyLimitReached : Option Bool := none
  deriving DecidableEq, Repr

/-- `updatedDailyShares[todayIndex].count += 1`: bump the first entry for
today. -/
def bumpFirstShare (today : String) : List DailyShare → List DailyShare
  | [] => []
  | d :: l =>
    if d.date = today then { d with count := d.count + 1 } :: l
    else d :: bumpFirstShare today l

/-- `completeShareQuest`: guard on quest existence, prior completion and the
daily cap, then record one share, update progress/completion and the
aggregates. Returns the result object and the stored data afterwards. -/
def completeShareQuest (catalog : List Quest) (today : String) (now : Int)
    (userId questId : String) (dataOpt : Option UserQuestData) :
    ShareResult × Option UserQuestData :=
  match catalog.find? (fun q =>
      decide (q.id = questId) && decide (q.type = QuestType.share_based) && q.isActive) with
  | none => ({ success := false, message := "Share quest not found or not active" }, dataOpt)
  | some shareQuest =>
    let data :=
      match dataOpt with
      | some d => d
      | none => initializeUserQuestData catalog userId today now
    let currentUserQuest := data.quests.find? (fun uq => uq.questId = questId)
    if (currentUserQuest.map (fun uq => uq.isCompleted)).getD false then
      ({ success := false, message := "Quest already completed" }, some data)
    else
      let todayShareCount :=
        ((currentUserQuest.bind (fun uq => uq.dailyShares.find? (fun ds => ds.date = today))).map
          (fun ds => ds.count)).getD 0
      if (match shareQuest.requirements.dailyShareLimit with
          | some n => decide (0 < n) && decide (n ≤ todayShareCount)
          | none => false) then
        ({ success := false
           message := "Daily limit reached. Come back tomorrow!"
           dailyLimitReached := some true }, some data)
      else
        let requiredShares := jsOr shareQuest.requirements.shareCount 1
        let currentProgress := (currentUserQuest.map (fun uq => uq.progress)).getD 0
        let newProgress := currentProgress + 1
        let updatedQuests := data.quests.map (fun quest =>
          if quest.questId = questId then
            { quest with
              progress := newProgress
              isCompleted := newProgress ≥ requiredShares
              completedAt :=
                if newProgress ≥ requiredShares then some now else quest.completedAt
              lastUpdated := now
              dailyShares :=
                if quest.dailyShares.any (fun ds => ds.date = today) then
                  bumpFirstShare today quest.dailyShares
                else quest.dailyShares ++ [{ date := today, count := 1 }] }
          else quest)
        let completedNow := newProgress ≥ requiredShares
        let newData := { data with
          quests := updatedQuests
          totalQuestsCompleted :=
            if completedNow then data.totalQuestsCompleted + 1
            else data.totalQuestsCompleted
          totalQuestPoints :=
            if completedNow then data.totalQuestPoints + shareQuest.rewardsPoints
            else data.totalQuestPoints }
        if completedNow then
          ({ success := true
             message := "Share quest completed!"
             pointsEarned := some shareQuest.rewardsPoints }, some newData)
        else
          ({ success := true, message := "Progress updated" }, some newData)

/-! ### Reward redemption (`reward-service` and the rewards API route) -/

structure Reward where
  id : String
  name : String
  rewardType : String
  pointsReward : Int
  questIds : List String
  requiredLevel : Int
  isActive : Bool
  maxRedemptions : Option Int
  currentRedemptions : Int
  deriving DecidableEq, Repr

structure UserReward where
  id : String
  userId : String
  rewardId : String
  rewardName : String
  rewardType : String
  pointsReward : Int
  redeemedAt : Int
  status : String
  deriving DecidableEq, Repr

/-- The two Firestore collections the redemption path touches. -/
structure RewardStore where
  rewards : List Reward
  userRewards : List UserReward
  deriving DecidableEq, Repr

/-- `hasUserRedeemedReward`: non-empty query on `(userId, rewardId)`. -/
def hasUserRedeemedReward (s : RewardStore) (userId rewardId : String) : Bool :=
  s.userRewards.any (fun ur =>
    decide (ur.userId = userId) && decide (ur.rewardId = rewardId))

/-- `recordUserReward`: insert the redemption record with a fresh document
id, then set `currentRedemptions` to the value read earlier plus one. -/
def recordUserReward (s : RewardStore) (userId : String) (reward : Reward)
    (now : Int) (newId : String) : RewardStore :=
  { rewards := s.rewards.map (fun rw =>
      if rw.id = reward.id then
        { rw with currentRedemptions := reward.currentRedemptions + 1 }
      else rw)
    userRewards := s.userRewards ++
      [{ id := newId
         userId := userId
         rewardId := reward.id
         rewardName := reward.name
         rewardType := reward.rewardType
         pointsReward := reward.pointsReward
         redeemedAt := now
         status := "claimed" }] }

/-- The distinct JSON responses of the redemption POST route. -/
inductive RedeemOutcome
  | missingFields
  | rewardNotFound
  | rewardNotActive
  | alreadyRedeemed
  | limitReached
  | levelNotMet
  | questsNotMet
  | redeemed
  deriving DecidableEq, Repr

/-- The redemption POST route: validate, fetch the reward, guard on
already-redeemed, the redemption cap, the level requirement and the quest
requirements, then record. `userTotalPoints` and `completedQuestIds` stand
for the `getCombinedPoints` / `getUserQuestData` reads. -/
def redeemReward (s : RewardStore) (userId rewardId : String)
    (userTotalPoints : Int) (completedQuestIds : List String) (now : Int)
    (newId : String) : RedeemOutcome × RewardStore :=
  if userId = "" ∨ rewardId = "" then (RedeemOutcome.missingFields, s)
  else
    match s.rewards.find? (fun rw => rw.id = rewardId) with
    | none => (RedeemOutcome.rewardNotFound, s)
    | some reward =>
      if ¬reward.isActive then (RedeemOutcome.rewardNotActive, s)
      else if hasUserRedeemedReward s userId rewardId then
        (RedeemOutcome.alreadyRedeemed, s)
      else if (match reward.maxRedemptions with
          | some m => decide (m ≠ 0) && decide (reward.currentRedemptions ≥ m)
          | none => false) then
        (RedeemOutcome.limitReached, s)
      else if userTotalPoints < reward.requiredLevel then
        (RedeemOutcome.levelNotMet, s)
      else if reward.questIds.any (fun q => ¬completedQuestIds.contains q) then
        (RedeemOutcome.questsNotMet, s)
      else (RedeemOutcome.redeemed, recordUserReward s userId reward now newId)

/-- Number of stored redemption records for a `(userId, rewardId)` pair. -/
def countUserRewardPairs (s : RewardStore) (userId rewardId : String) : Nat :=
  (s.userRewards.filter (fun ur =>
    decide (ur.userId = userId) && decide (ur.rewardId = rewardId))).length

/-- `currentRedemptions` of the first stored reward with the given id. -/
def currentRedemptionsOf (s : RewardStore) (rewardId : String) : Option Int :=
  (s.rewards.find? (fun rw => rw.id = rewardId)).map (fun rw => rw.currentRedemptions)

/-! ### Notification broadcaster (`notification-client`) -/

/-- `SendFrameNotificationResult` states. -/
inductive SendState
  | success
  | rate_limit
  | no_token
  | error
  deriving DecidableEq, Repr

/-- The notification endpoint's observable response: HTTP status, whether
the body parses against the response schema, and how many tokens came back
rate-limited. -/
structure NotifResponse where
  status : Nat
  parsedOk : Bool
  rateLimitedCount : Nat
  deriving DecidableEq, Repr

/-- `sendFrameNotification`: no stored token short-circuits to `no_token`
without a delivery attempt; otherwise the response is classified, and a
thrown error yields `error`. -/
def sendFrameNotification (details : Option String)
    (resp : Except Unit NotifResponse) : SendState :=
  match details with
  | none => SendState.no_token
  | some _ =>
    match resp with
    | .error _ => SendState.error
    | .ok r =>
      if r.status = 200 then
        if ¬r.parsedOk then SendState.error
        else if r.rateLimitedCount ≠ 0 then SendState.rate_limit
        else SendState.success
      else SendState.error

/-- The aggregated broadcast counters. -/
structure BroadcastResults where
  successful : Nat
  failed : Nat
  rateLimited : Nat
  noToken : Nat
  deriving DecidableEq, Repr

/-- The `switch` in the broadcast loop: one counter bumped per outcome. -/
def bumpResult (c : BroadcastResults) : SendState → BroadcastResults
  | .success => { c with successful := c.successful + 1 }
  | .rate_limit => { c with rateLimited := c.rateLimited + 1 }
  | .no_token => { c with noToken := c.noToken + 1 }
  | .error => { c with failed := c.failed + 1 }

/-- The batching loop `for (let i = 0; i < n; i += batchSize)` with
`batchSize = 10`: successive slices `targetUsers.slice(i, i + 10)`. -/
def batchesOf : List Nat → List (List Nat)
  | [] => []
  | l@(_ :: _) => l.take 10 :: batchesOf (l.drop 10)
termination_by l => l.length
decreasing_by
  rename_i h; subst h; simp; omega

/-- The environment of one send: the stored token (if any) and the
delivery response for each fid. -/
def broadcastOutcome (env : Nat → Option String × Except Unit NotifResponse)
    (fid : Nat) : SendState :=
  sendFrameNotification (env fid).1 (env fid).2

/-- `sendBroadcastNotification`: process the batches in order, settling
every member of a batch and bumping the matching counter. -/
def sendBroadcastNotification (env : Nat → Option String × Except Unit NotifResponse)
    (targetUsers : List Nat) : BroadcastResults :=
  (batchesOf targetUsers).foldl
    (fun results batch =>
      batch.foldl (fun c fid => bumpResult c (broadcastOutcome env fid)) results)
    { successful := 0, failed := 0, rateLimited := 0, noToken := 0 }

/-! ### Lifecycle webhook (the webhook route) -/

/-- The Key Registry `keyDataOf` result. -/
structure KeyData where
  state : Nat
  keyType : Nat
  deriving DecidableEq, Repr

/-- `verifyFidOwnership`: a thrown registry read is caught and returns
`false`; otherwise the key must be active (`state = 1`) of type 1. -/
def verifyFidOwnership (call : Except Unit KeyData) : Bool :=
  match call with
  | .error _ => false
  | .ok r => decide (r.state = 1) && decide (r.keyType = 1)

/-- Decoded webhook payload events. -/
inductive WebhookEvent
  | frame_added (nd : Option (String × String))
  | frame_removed
  | notifications_enabled (nd : Option (String × String))
  | notifications_disabled
  | unknown
  deriving DecidableEq, Repr

/-- The store effects of the webhook handler. -/
inductive WebhookAction
  | storeToken (fid : Nat) (token url : String)
  | deleteToken (fid : Nat)
  | sendWelcome (fid : Nat)
  deriving DecidableEq, Repr

/-- The webhook POST handler: status code plus the sequence of token-store
effects. `header` is the decoded `(fid, key)` pair (`none` when header or
payload is missing); falsy `fid`/`key` are rejected with 400 and a failed
ownership check with 401, before any effect. -/
def webhookPOST (header : Option (Nat × String)) (event : WebhookEvent)
    (registryCall : Except Unit KeyData) : Nat × List WebhookAction :=
  match header with
  | none => (400, [])
  | some (fid, key) =>
    if fid = 0 ∨ key = "" then (400, [])
    else if ¬verifyFidOwnership registryCall then (401, [])
    else
      match event with
      | .frame_added nd =>
        (200, match nd with
          | some (t, u) => [WebhookAction.storeToken fid t u, WebhookAction.sendWelcome fid]
          | none => [WebhookAction.deleteToken fid])
      | .frame_removed => (200, [WebhookAction.deleteToken fid])
      | .notifications_enabled nd =>
        (200, match nd with
          | some (t, u) => [WebhookAction.storeToken fid t u, WebhookAction.sendWelcome fid]
          | none => [])
      | .notifications_disabled => (200, [WebhookAction.deleteToken fid])
      | .unknown => (200, [])

/-! ### Combined points (`getCombinedPoints` in `firebase-service`) -/

structure CombinedPointsResult where
  activityPoints : Int
  questPoints : Int
  totalPoints : Int
  level : String
  deriving DecidableEq, Repr

/-- The body of `getCombinedPoints`: the two reads (each already `null` on
its own failure), summed, with the inline level chain. -/
def getCombinedPoints (userTotalPoints questTotalPoints : Option Int) :
    CombinedPointsResult :=
  let activityPoints := userTotalPoints.getD 0
  let questPoints := questTotalPoints.getD 0
  let totalPoints := activityPoints + questPoints
  let level :=
    if totalPoints ≥ 1000 then "Diamond Hands"
    else if totalPoints ≥ 500 then "Whale"
    else if totalPoints ≥ 200 then "DeFi Master"
    else if totalPoints ≥ 100 then "Crypto Native"
    else if totalPoints ≥ 50 then "HODLer"
    else "Newbie"
  { activityPoints := activityPoints
    questPoints := questPoints
    totalPoints := totalPoints
    level := level }

/-- `getCombinedPoints` with its catch-all: a thrown read returns the
all-zero record with level `Newbie`. -/
def getCombinedPointsSafe (reads : Except Unit (Option Int × Option Int)) :
    CombinedPointsResult :=
  match reads with
  | .error _ =>
    { activityPoints := 0, questPoints := 0, totalPoints := 0, level := "Newbie" }
  | .ok (u, q) => getCombinedPoints u q

/-- Non-NFT uniqueness key `(hash, direction)` as a predicate on stored
activities. -/
def pairKeyPred (h : String) (d : Direction) (a : Activity) : Bool :=
  decide (a.type ≠ ActivityType.nft_transfer) && decide (a.hash = h) &&
    decide (a.direction = d)

/-- NFT uniqueness key `(hash, direction, asset, tokenId)` as a predicate. -/
def nftKeyPred (h : String) (d : Direction) (asset tok : Option String)
    (a : Activity) : Bool :=
  decide (a.type = ActivityType.nft_transfer) && decide (a.hash = h) &&
    decide (a.direction = d) && decide (a.asset = asset) && decide (a.tokenId = tok)

/-- How many recipients of a broadcast end with a given outcome. -/
def countOutcome (env : Nat → Option String × Except Unit NotifResponse)
    (o : SendState) (l : List Nat) : Nat :=
  (l.filter (fun fid => broadcastOutcome env fid = o)).length

/-! ## Theorems -/

/-- C10: `getCombinedPoints` always returns `totalPoints` equal to
`activityPoints + questPoints`, with `level` the threshold-table label
(Diamond Hands at 1000, Whale at 500, DeFi Master at 200, Crypto Native at
100, HODLer at 50, else Newbie) for that total; the failure path returns
the all-zero record with level Newbie, so the relation holds on every
return path. -/
theorem getCombinedPoints_consistent (reads : Except Unit (Option Int × Option Int)) :
    (getCombinedPointsSafe reads).totalPoints =
      (getCombinedPointsSafe reads).activityPoints + (getCombinedPointsSafe reads).questPoints ∧
    (getCombinedPointsSafe reads).level =
      levelLabelCombined (getCombinedPointsSafe reads).totalPoints ∧
    getCombinedPointsSafe (Except.error ()) =
      { activityPoints := 0, questPoints := 0, totalPoints := 0, level := "Newbie" } := by
  refine ⟨?_, ?_, by rfl⟩ <;>
    rcases reads with e | ⟨u, q⟩ <;>
      simp [getCombinedPointsSafe, getCombinedPoints, levelLabelCombined]

/-- C9: when the key-registry ownership check fails — the registry call
throws, or returns key data that is not an active (`state = 1`) key of
type 1 — the webhook handler answers 401 and performs no token store or
delete, for every event type. -/
theorem webhook_fails_closed (fid : Nat) (key : String) (event : WebhookEvent)
    (call : Except Unit KeyData)
    (hfid : fid ≠ 0) (hkey : key ≠ "")
    (hinvalid : (∃ e, call = Except.error e) ∨
      ∃ r, call = Except.ok r ∧ ¬(r.state = 1 ∧ r.keyType = 1)) :
    webhookPOST (some (fid, key)) event call = (401, []) := by
  have hv : verifyFidOwnership call = false := by
    rcases hinvalid with ⟨e, rfl⟩ | ⟨r, rfl, hr⟩
    · rfl
    · simp [verifyFidOwnership]
      intro h1 h2
      exact absurd ⟨h1, h2⟩ hr
  simp [webhookPOST, hfid, hkey, hv]

/-- Witness for C9 at a concrete request: fid 3, key "0xabc", a
`frame_added` event carrying notification details, and a registry call
that throws. -/
theorem webhook_fails_closed_witness :
    webhookPOST (some (3, "0xabc"))
      (WebhookEvent.frame_added (some ("tok", "url"))) (Except.error ()) = (401, []) :=
  webhook_fails_closed 3 "0xabc" _ _ (by decide) (by decide) (Or.inl ⟨(), rfl⟩)

/-- C5 counterexample: a share quest with `dailyShareLimit = 3` whose user
entry is already completed and already records 3 shares today. The call
is rejected, but with the "Quest already completed" outcome: the result
carries no `dailyLimitReached` flag, contrary to the claim that every
at-cap attempt returns `dailyLimitReached = true`. -/
theorem share_quest_cap_cex :
    (completeShareQuest
      [{ id := "s1", type := QuestType.share_based,
         requirements := { shareCount := some 5, dailyShareLimit := some 3 },
         rewardsPoints := 50, isActive := true }]
      "2026-01-02" 100 "u" "s1"
      (some { userId := "u"
              quests := [{ userId := "u", questId := "s1", progress := 5,
                           isCompleted := true, completedAt := some 10,
                           startedAt := 0, lastUpdated := 0,
                           dailyShares := [{ date := "2026-01-02", count := 3 }] }]
              dailyLoginStreak := 0, lastLoginDate := "2026-01-02"
              totalQuestsCompleted := 1, totalQuestPoints := 50 })).1.dailyLimitReached
      = none := by
  decide

/-- C5 amended: for an active share-based quest with a positive daily limit
`n`, when the user's (not yet completed) quest entry already records `n` or
more shares today, `completeShareQuest` returns `success = false` with
`dailyLimitReached = true` and leaves the stored data unchanged. (When the
entry is already completed the call is instead rejected with the
"Quest already completed" outcome, also without mutation and without the
`dailyLimitReached` flag.) -/
theorem share_quest_daily_cap (catalog : List Quest) (today : String) (now : Int)
    (userId questId : String) (data : UserQuestData) (shareQuest : Quest)
    (uq : UserQuest) (ds : DailyShare) (n : Int)
    (hq : catalog.find? (fun q =>
      decide (q.id = questId) && decide (q.type = QuestType.share_based) && q.isActive)
      = some shareQuest)
    (hlim : shareQuest.requirements.dailyShareLimit = some n)
    (hn : 0 < n)
    (hfound : data.quests.find? (fun x => x.questId = questId) = some uq)
    (hnotdone : uq.isCompleted = false)
    (hds : uq.dailyShares.find? (fun x => x.date = today) = some ds)
    (hcount : n ≤ ds.count) :
    completeShareQuest catalog today now userId questId (some data) =
      ({ success := false
         message := "Daily limit reached. Come back tomorrow!"
         dailyLimitReached := some true }, some data) := by
  simp only [completeShareQuest, hq, hfound, hlim]
  simp [hnotdone, hds, hn, hcount]

/-- Witness for C5 (amended) at a concrete input: limit 3, three shares
already recorded today, entry not completed. -/
theorem share_quest_daily_cap_witness :
    completeShareQuest
      [{ id := "s1", type := QuestType.share_based,
         requirements := { shareCount := some 5, dailyShareLimit := some 3 },
         rewardsPoints := 50, isActive := true }]
      "2026-01-02" 100 "u" "s1"
      (some { userId := "u"
              quests := [{ userId := "u", questId := "s1", progress := 2,
                           isCompleted := false, completedAt := none,
                           startedAt := 0, lastUpdated := 0,
                           dailyShares := [{ date := "2026-01-02", count := 3 }] }]
              dailyLoginStreak := 0, lastLoginDate := "2026-01-02"
              totalQuestsCompleted := 0, totalQuestPoints := 0 }) =
      ({ success := false
         message := "Daily limit reached. Come back tomorrow!"
         dailyLimitReached := some true },
       some { userId := "u"
              quests := [{ userId := "u", questId := "s1", progress := 2,
                           isCompleted := false, completedAt := none,
                           startedAt := 0, lastUpdated := 0,
                           dailyShares := [{ date := "2026-01-02", count := 3 }] }]
              dailyLoginStreak := 0, lastLoginDate := "2026-01-02"
              totalQuestsCompleted := 0, totalQuestPoints := 0 }) :=
  share_quest_daily_cap
    [{ id := "s1", type := QuestType.share_based,
       requirements := { shareCount := some 5, dailyShareLimit := some 3 },
       rewardsPoints := 50, isActive := true }]
    "2026-01-02" 100 "u" "s1"
    { userId := "u"
      quests := [{ userId := "u", questId := "s1", progress := 2,
                   isCompleted := false, completedAt := none,
                   startedAt := 0, lastUpdated := 0,
                   dailyShares := [{ date := "2026-01-02", count := 3 }] }]
      dailyLoginStreak := 0, lastLoginDate := "2026-01-02"
      totalQuestsCompleted := 0, totalQuestPoints := 0 }
    { id := "s1", type := QuestType.share_based,
      requirements := { shareCount := some 5, dailyShareLimit := some 3 },
      rewardsPoints := 50, isActive := true }
    { userId := "u", questId := "s1", progress := 2,
      isCompleted := false, completedAt := none,
      startedAt := 0, lastUpdated := 0,
      dailyShares := [{ date := "2026-01-02", count := 3 }] }
    { date := "2026-01-02", count := 3 } 3
    (by decide) (by decide) (by decide) (by decide) (by decide) (by decide) (by decide)

/-- After replacing the first entry for `questId`, the first entry found for
`questId` is the replacement. -/
theorem find?_setFirstQuest (questId : String) (u : UserQuest)
    (hu : u.questId = questId) :
    ∀ (l : List UserQuest) (q : UserQuest),
      l.find? (fun x => x.questId = questId) = some q →
      (setFirstQuest questId u l).find? (fun x => x.questId = questId) = some u
  | [], q, h => by simp at h
  | x :: l, q, h => by
    by_cases hx : x.questId = questId
    · simp [setFirstQuest, hx, hu]
    · have e : setFirstQuest questId u (x :: l) = x :: setFirstQuest questId u l := by
        simp [setFirstQuest, hx]
      rw [e, List.find?_cons_of_neg _ (by simp [hx])]
      rw [List.find?_cons_of_neg _ (by simp [hx])] at h
      exact find?_setFirstQuest questId u hu l q h

/-- C2 counterexample: a streak quest (7 days) whose user entry is already
completed with `progress = 7` and `completedAt = 500`. A later progress
update with incoming value 1 keeps `isCompleted = true` but stores
`progress = 1` (lowered) and drops `completedAt`, contradicting the claim
that stored progress never decreases and `completedAt` is never cleared. -/
theorem quest_progress_regress_cex :
    (checkAndUpdateQuestProgress
      [{ id := "q1", type := QuestType.streak_based,
         requirements := { streakDays := some 7 },
         rewardsPoints := 100, isActive := true }]
      1000
      (some { userId := "u"
              quests := [{ userId := "u", questId := "q1", progress := 7,
                           isCompleted := true, completedAt := some 500,
                           startedAt := 0, lastUpdated := 0, dailyShares := [] }]
              dailyLoginStreak := 1, lastLoginDate := "2026-01-02"
              totalQuestsCompleted := 1, totalQuestPoints := 100 })
      "q1" 1).map (fun d => d.quests.map (fun q => (q.progress, q.isCompleted, q.completedAt)))
      = some [((1 : Int), true, (none : Option Int))] := by
  decide

/-- C2 amended: once a user quest entry has `isCompleted = true`, every
later call of `checkAndUpdateQuestProgress` for it keeps `isCompleted`
true and leaves the aggregates alone, but the stored entry's `progress` is
overwritten with the incoming value (which may be lower) and its
`completedAt` is dropped from the record. -/
theorem quest_completion_terminal (catalog : List Quest) (now : Int)
    (data : UserQuestData) (questId : String) (p : Int)
    (quest : UserQuest) (questDef : Quest)
    (hfound : data.quests.find? (fun q => q.questId = questId) = some quest)
    (hdone : quest.isCompleted = true)
    (hdef : catalog.find? (fun q => q.id = questId) = some questDef) :
    ∃ d, checkAndUpdateQuestProgress catalog now (some data) questId p = some d ∧
      d.quests.find? (fun q => q.questId = questId) = some
        { userId := quest.userId, questId := quest.questId, progress := p,
          isCompleted := true, completedAt := none,
          startedAt := quest.startedAt, lastUpdated := now, dailyShares := [] } ∧
      d.totalQuestPoints = data.totalQuestPoints ∧
      d.totalQuestsCompleted = data.totalQuestsCompleted := by
  have hq : quest.questId = questId := by
    have h := List.find?_some hfound
    simpa using h
  refine ⟨{ data with
      quests := setFirstQuest questId
          { userId := quest.userId, questId := quest.questId, progress := p,
            isCompleted := true, completedAt := none,
            startedAt := quest.startedAt, lastUpdated := now, dailyShares := [] }
          data.quests }, ?_, ?_, rfl, rfl⟩
  · simp only [checkAndUpdateQuestProgress, hfound, hdef, hdone]
    simp
  · exact find?_setFirstQuest questId
      { userId := quest.userId, questId := quest.questId, progress := p,
        isCompleted := true, completedAt := none,
        startedAt := quest.startedAt, lastUpdated := now, dailyShares := [] }
      hq data.quests quest hfound

/-- Witness for C2 (amended): the counterexample scenario, instantiated in
the amended theorem. -/
theorem quest_completion_terminal_witness :
    ∃ d, checkAndUpdateQuestProgress
      [{ id := "q1", type := QuestType.streak_based,
         requirements := { streakDays := some 7 },
         rewardsPoints := 100, isActive := true }]
      1000
      (some { userId := "u"
              quests := [{ userId := "u", questId := "q1", progress := 7,
                           isCompleted := true, completedAt := some 500,
                           startedAt := 0, lastUpdated := 0, dailyShares := [] }]
              dailyLoginStreak := 1, lastLoginDate := "2026-01-02"
              totalQuestsCompleted := 1, totalQuestPoints := 100 })
      "q1" 1 = some d ∧
      d.quests.find? (fun q => q.questId = "q1") = some
        { userId := "u", questId := "q1", progress := 1,
          isCompleted := true, completedAt := none,
          startedAt := 0, lastUpdated := 1000, dailyShares := [] } ∧
      d.totalQuestPoints = 100 ∧
      d.totalQuestsCompleted = 1 :=
  quest_completion_terminal
    [{ id := "q1", type := QuestType.streak_based,
       requirements := { streakDays := some 7 },
       rewardsPoints := 100, isActive := true }]
    1000
    { userId := "u"
      quests := [{ userId := "u", questId := "q1", progress := 7,
                   isCompleted := true, completedAt := some 500,
                   startedAt := 0, lastUpdated := 0, dailyShares := [] }]
      dailyLoginStreak := 1, lastLoginDate := "2026-01-02"
      totalQuestsCompleted := 1, totalQuestPoints := 100 }
    "q1" 1
    { userId := "u", questId := "q1", progress := 7,
      isCompleted := true, completedAt := some 500,
      startedAt := 0, lastUpdated := 0, dailyShares := [] }
    { id := "q1", type := QuestType.streak_based,
      requirements := { streakDays := some 7 },
      rewardsPoints := 100, isActive := true }
    (by decide) (by decide) (by decide)

/-- `checkAndUpdateQuestProgress` only rewrites the quest list and the
completion aggregates: the streak fields survive unchanged. -/
theorem checkAndUpdateQuestProgress_streak_fields (catalog : List Quest)
    (now : Int) (data : UserQuestData) (questId : String) (p : Int) :
    ((checkAndUpdateQuestProgress catalog now (some data) questId p).getD data).dailyLoginStreak
      = data.dailyLoginStreak ∧
    ((checkAndUpdateQuestProgress catalog now (some data) questId p).getD data).lastLoginDate
      = data.lastLoginDate := by
  simp only [checkAndUpdateQuestProgress]
  cases hf : data.quests.find? (fun q => q.questId = questId) with
  | none => simp
  | some quest =>
    cases hd : catalog.find? (fun q => q.id = questId) with
    | none => simp
    | some questDef => simp

/-- C6 counterexample: user data whose `lastLoginDate` is already today but
whose stored streak is 0 (the state `initializeUserQuestData` writes). The
same-day branch sets the streak to 1, so the claim that a same-day call
leaves the streak value unchanged is false. -/
theorem login_streak_same_day_cex :
    (updateDailyLoginStreak [] "u" "2026-01-02" "2026-01-01" 0
      (some { userId := "u", quests := [], dailyLoginStreak := 0,
              lastLoginDate := "2026-01-02", totalQuestsCompleted := 0,
              totalQuestPoints := 0 })).1.dailyLoginStreak = 1 := by
  decide

/-- C6 amended: with existing user data and an active streak-based quest in
the catalog, `updateDailyLoginStreak` stores `nextStreak`: unchanged on a
same-day call unless the stored streak was 0 (then 1), incremented when
`lastLoginDate` is yesterday, reset to 1 on any other gap; `lastLoginDate`
becomes today; and the streak quest is re-evaluated with the resulting
streak value in every one of these cases. -/
theorem daily_login_streak_rule (catalog : List Quest)
    (userId today yesterday : String) (now : Int) (data : UserQuestData)
    (sq : Quest)
    (hsq : catalog.find? (fun q =>
      decide (q.type = QuestType.streak_based) && q.isActive) = some sq) :
    (updateDailyLoginStreak catalog userId today yesterday now (some data)).1.dailyLoginStreak
        = nextStreak data.lastLoginDate today yesterday data.dailyLoginStreak ∧
    (updateDailyLoginStreak catalog userId today yesterday now (some data)).1.lastLoginDate
        = today ∧
    (updateDailyLoginStreak catalog userId today yesterday now (some data)).2
        = some (sq.id, nextStreak data.lastLoginDate today yesterday data.dailyLoginStreak) ∧
    (data.lastLoginDate = today → data.dailyLoginStreak ≠ 0 →
      nextStreak data.lastLoginDate today yesterday data.dailyLoginStreak
        = data.dailyLoginStreak) ∧
    (data.lastLoginDate ≠ today → data.lastLoginDate = yesterday →
      nextStreak data.lastLoginDate today yesterday data.dailyLoginStreak
        = data.dailyLoginStreak + 1) ∧
    (data.lastLoginDate ≠ today → data.lastLoginDate ≠ yesterday →
      nextStreak data.lastLoginDate today yesterday data.dailyLoginStreak = 1) := by
  refine ⟨?_, ?_, ?_, ?_, ?_, ?_⟩
  · simp only [updateDailyLoginStreak, hsq]
    exact (checkAndUpdateQuestProgress_streak_fields _ _ _ _ _).1
  · simp only [updateDailyLoginStreak, hsq]
    exact (checkAndUpdateQuestProgress_streak_fields _ _ _ _ _).2
  · simp only [updateDailyLoginStreak, hsq]
  · intro h1 h2
    simp [nextStreak, h1, h2]
  · intro h1 h2
    subst h2
    simp [nextStreak, h1]
  · intro h1 h2
    simp [nextStreak, h1, h2]

/-- Witness for C6 (amended): yesterday-login user with streak 3 and one
active 7-day streak quest. -/
theorem daily_login_streak_rule_witness :
    (updateDailyLoginStreak
      [{ id := "q1", type := QuestType.streak_based,
         requirements := { streakDays := some 7 },
         rewardsPoints := 100, isActive := true }]
      "u" "2026-01-02" "2026-01-01" 0
      (some { userId := "u", quests := [], dailyLoginStreak := 3,
              lastLoginDate := "2026-01-01", totalQuestsCompleted := 0,
              totalQuestPoints := 0 })).1.dailyLoginStreak
        = nextStreak "2026-01-01" "2026-01-02" "2026-01-01" 3 ∧
    (updateDailyLoginStreak
      [{ id := "q1", type := QuestType.streak_based,
         requirements := { streakDays := some 7 },
         rewardsPoints := 100, isActive := true }]
      "u" "2026-01-02" "2026-01-01" 0
      (some { userId := "u", quests := [], dailyLoginStreak := 3,
              lastLoginDate := "2026-01-01", totalQuestsCompleted := 0,
              totalQuestPoints := 0 })).1.lastLoginDate = "2026-01-02" ∧
    (updateDailyLoginStreak
      [{ id := "q1", type := QuestType.streak_based,
         requirements := { streakDays := some 7 },
         rewardsPoints := 100, isActive := true }]
      "u" "2026-01-02" "2026-01-01" 0
      (some { userId := "u", quests := [], dailyLoginStreak := 3,
              lastLoginDate := "2026-01-01", totalQuestsCompleted := 0,
              totalQuestPoints := 0 })).2
        = some ("q1", nextStreak "2026-01-01" "2026-01-02" "2026-01-01" 3) ∧
    ("2026-01-01" = "2026-01-02" → (3 : Int) ≠ 0 →
      nextStreak "2026-01-01" "2026-01-02" "2026-01-01" 3 = 3) ∧
    ("2026-01-01" ≠ "2026-01-02" → "2026-01-01" = "2026-01-01" →
      nextStreak "2026-01-01" "2026-01-02" "2026-01-01" 3 = 3 + 1) ∧
    ("2026-01-01" ≠ "2026-01-02" → "2026-01-01" ≠ "2026-01-01" →
      nextStreak "2026-01-01" "2026-01-02" "2026-01-01" 3 = 1) :=
  daily_login_streak_rule
    [{ id := "q1", type := QuestType.streak_based,
       requirements := { streakDays := some 7 },
       rewardsPoints := 100, isActive := true }]
    "u" "2026-01-02" "2026-01-01" 0
    { userId := "u", quests := [], dailyLoginStreak := 3,
      lastLoginDate := "2026-01-01", totalQuestsCompleted := 0,
      totalQuestPoints := 0 }
    { id := "q1", type := QuestType.streak_based,
      requirements := { streakDays := some 7 },
      rewardsPoints := 100, isActive := true }
    (by decide)

/-- The redemption-count bump rewrites `currentRedemptions` only; ids and
the other fields survive. -/
theorem recordUserReward_bump_id (reward rw : Reward) :
    (if rw.id = reward.id then
      { rw with currentRedemptions := reward.currentRedemptions + 1 }
     else rw).id = rw.id := by
  split <;> rfl

/-- C1: a successful redemption of `(userId, rewardId)` makes a second
attempt for the same pair fail with the already-redeemed conflict outcome
and leave the store untouched; the pair had no record before, has exactly
one record after, and `currentRedemptions` is incremented exactly once. -/
theorem reward_redemption_exclusive (s s1 : RewardStore) (userId rewardId : String)
    (pts1 pts2 : Int) (cq1 cq2 : List String) (t1 t2 : Int) (id1 id2 : String)
    (h1 : redeemReward s userId rewardId pts1 cq1 t1 id1 = (RedeemOutcome.redeemed, s1)) :
    redeemReward s1 userId rewardId pts2 cq2 t2 id2 = (RedeemOutcome.alreadyRedeemed, s1) ∧
    countUserRewardPairs s userId rewardId = 0 ∧
    countUserRewardPairs s1 userId rewardId = 1 ∧
    ∃ c, currentRedemptionsOf s rewardId = some c ∧
      currentRedemptionsOf s1 rewardId = some (c + 1) := by
  simp only [redeemReward] at h1
  split at h1
  · simp at h1
  next hne =>
    split at h1
    · simp at h1
    next reward hr =>
      split at h1
      · simp at h1
      next hact =>
        split at h1
        · simp at h1
        next hred =>
          split at h1
          · simp at h1
          next hcap =>
            split at h1
            · simp at h1
            next hlvl =>
              split at h1
              · simp at h1
              next hq =>
                have hs1 : s1 = recordUserReward s userId reward t1 id1 := by
                  have h2 := (Prod.mk.injEq _ _ _ _).mp h1
                  exact h2.2.symm
                have hid : reward.id = rewardId := by
                  have h3 := List.find?_some hr
                  simpa using h3
                have hredF : hasUserRedeemedReward s userId rewardId = false := by
                  revert hred
                  cases hasUserRedeemedReward s userId rewardId <;> simp
                have hactT : reward.isActive = true := by
                  revert hact
                  cases reward.isActive <;> simp
                have hfind1 : s1.rewards.find? (fun rw => rw.id = rewardId) =
                    some { reward with
                      currentRedemptions := reward.currentRedemptions + 1 } := by
                  rw [hs1]
                  simp only [recordUserReward, List.find?_map]
                  have hpc : (fun rw : Reward => decide (rw.id = rewardId)) ∘
                      (fun rw : Reward =>
                        if rw.id = reward.id then
                          { rw with currentRedemptions := reward.currentRedemptions + 1 }
                        else rw) =
                      fun rw : Reward => decide (rw.id = rewardId) := by
                    funext rw
                    simp [Function.comp, recordUserReward_bump_id reward rw]
                  rw [hpc, hr]
                  simp [hid]
                have hred1 : hasUserRedeemedReward s1 userId rewardId = true := by
                  rw [hs1]
                  simp [hasUserRedeemedReward, recordUserReward, hid]
                refine ⟨?_, ?_, ?_, ?_⟩
                · simp only [redeemReward, hfind1]
                  rw [if_neg hne]
                  simp [hactT, hred1]
                · simp only [countUserRewardPairs]
                  rw [List.length_eq_zero]
                  rw [List.filter_eq_nil_iff]
                  intro ur hur
                  simp only [hasUserRedeemedReward] at hredF
                  rw [List.any_eq_false] at hredF
                  exact fun hc => by simpa [hc] using hredF ur hur
                · rw [hs1]
                  simp only [countUserRewardPairs, recordUserReward, List.filter_append]
                  rw [List.length_append]
                  have hz : (s.userRewards.filter (fun ur =>
                      decide (ur.userId = userId) && decide (ur.rewardId = rewardId))).length = 0 := by
                    rw [List.length_eq_zero, List.filter_eq_nil_iff]
                    intro ur hur
                    simp only [hasUserRedeemedReward] at hredF
                    rw [List.any_eq_false] at hredF
                    exact fun hc => by simpa [hc] using hredF ur hur
                  rw [hz]
                  simp [hid]
                · refine ⟨reward.currentRedemptions, ?_, ?_⟩
                  · simp [currentRedemptionsOf, hr]
                  · simp [currentRedemptionsOf, hfind1]

/-- Witness for C1 at a concrete store: one active reward "r1" with no
redemptions yet, a user with 100 points and no completed-quest
requirements. -/
theorem reward_redemption_exclusive_witness :
    redeemReward
      { rewards := [{ id := "r1", name := "Badge", rewardType := "badge",
                      pointsReward := 10, questIds := [], requiredLevel := 50,
                      isActive := true, maxRedemptions := some 5,
                      currentRedemptions := 1 }]
        userRewards := [{ id := "x1", userId := "u", rewardId := "r1",
                          rewardName := "Badge", rewardType := "badge",
                          pointsReward := 10, redeemedAt := 7, status := "claimed" }] }
      "u" "r1" 100 [] 8 "x2" =
      (RedeemOutcome.alreadyRedeemed,
       { rewards := [{ id := "r1", name := "Badge", rewardType := "badge",
                       pointsReward := 10, questIds := [], requiredLevel := 50,
                       isActive := true, maxRedemptions := some 5,
                       currentRedemptions := 1 }]
         userRewards := [{ id := "x1", userId := "u", rewardId := "r1",
                           rewardName := "Badge", rewardType := "badge",
                           pointsReward := 10, redeemedAt := 7, status := "claimed" }] }) ∧
    countUserRewardPairs
      { rewards := [{ id := "r1", name := "Badge", rewardType := "badge",
                      pointsReward := 10, questIds := [], requiredLevel := 50,
                      isActive := true, maxRedemptions := some 5,
                      currentRedemptions := 0 }]
        userRewards := [] } "u" "r1" = 0 ∧
    countUserRewardPairs
      { rewards := [{ id := "r1", name := "Badge", rewardType := "badge",
                      pointsReward := 10, questIds := [], requiredLevel := 50,
                      isActive := true, maxRedemptions := some 5,
                      currentRedemptions := 1 }]
        userRewards := [{ id := "x1", userId := "u", rewardId := "r1",
                          rewardName := "Badge", rewardType := "badge",
                          pointsReward := 10, redeemedAt := 7, status := "claimed" }] }
      "u" "r1" = 1 ∧
    ∃ c, currentRedemptionsOf
      { rewards := [{ id := "r1", name := "Badge", rewardType := "badge",
                      pointsReward := 10, questIds := [], requiredLevel := 50,
                      isActive := true, maxRedemptions := some 5,
                      currentRedemptions := 0 }]
        userRewards := [] } "r1" = some c ∧
      currentRedemptionsOf
        { rewards := [{ id := "r1", name := "Badge", rewardType := "badge",
                        pointsReward := 10, questIds := [], requiredLevel := 50,
                        isActive := true, maxRedemptions := some 5,
                        currentRedemptions := 1 }]
          userRewards := [{ id := "x1", userId := "u", rewardId := "r1",
                            rewardName := "Badge", rewardType := "badge",
                            pointsReward := 10, redeemedAt := 7, status := "claimed" }] }
        "r1" = some (c + 1) :=
  reward_redemption_exclusive
    { rewards := [{ id := "r1", name := "Badge", rewardType := "badge",
                    pointsReward := 10, questIds := [], requiredLevel := 50,
                    isActive := true, maxRedemptions := some 5,
                    currentRedemptions := 0 }]
      userRewards := [] }
    { rewards := [{ id := "r1", name := "Badge", rewardType := "badge",
                    pointsReward := 10, questIds := [], requiredLevel := 50,
                    isActive := true, maxRedemptions := some 5,
                    currentRedemptions := 1 }]
      userRewards := [{ id := "x1", userId := "u", rewardId := "r1",
                        rewardName := "Badge", rewardType := "badge",
                        pointsReward := 10, redeemedAt := 7, status := "claimed" }] }
    "u" "r1" 100 100 [] [] 7 8 "x1" "x2"
    (by decide)

/-- Unfolding of `batchesOf` on a non-empty list. -/
theorem batchesOf_cons_eq (l : List Nat) (h : l ≠ []) :
    batchesOf l = l.take 10 :: batchesOf (l.drop 10) := by
  cases l with
  | nil => simp at h
  | cons a t => rw [batchesOf]

/-- A 25-element recipient list is processed in exactly three batches of
sizes 10, 10 and 5. -/
theorem batchesOf_sizes_25 (l : List Nat) (h : l.length = 25) :
    (batchesOf l).map List.length = [10, 10, 5] := by
  have h0 : l ≠ [] := by
    intro e; subst e; simp at h
  have h1 : (l.drop 10).length = 15 := by simp [h]
  have h10 : l.drop 10 ≠ [] := by
    intro e; rw [e] at h1; simp at h1
  have h2 : ((l.drop 10).drop 10).length = 5 := by simp [h]
  have h20 : (l.drop 10).drop 10 ≠ [] := by
    intro e; rw [e] at h2; simp at h2
  have h3 : ((l.drop 10).drop 10).drop 10 = [] := by
    rw [← List.length_eq_zero]; simp [h]
  rw [batchesOf_cons_eq l h0, batchesOf_cons_eq _ h10, batchesOf_cons_eq _ h20, h3]
  simp [batchesOf, List.length_take, h, h1, h2]

/-- Folding the per-recipient counter bump over a list adds, per outcome,
the number of recipients with that outcome. -/
theorem foldl_bump_counts (env : Nat → Option String × Except Unit NotifResponse)
    (l : List Nat) (c : BroadcastResults) :
    l.foldl (fun c fid => bumpResult c (broadcastOutcome env fid)) c =
      { successful := c.successful + countOutcome env SendState.success l
        failed := c.failed + countOutcome env SendState.error l
        rateLimited := c.rateLimited + countOutcome env SendState.rate_limit l
        noToken := c.noToken + countOutcome env SendState.no_token l } := by
  induction l generalizing c with
  | nil => cases c; simp [countOutcome]
  | cons fid l ih =>
    rw [List.foldl_cons, ih]
    cases c
    cases ho : broadcastOutcome env fid <;>
      simp [countOutcome, bumpResult, List.filter_cons, ho] <;> omega

/-- The four outcome counts partition the recipient list. -/
theorem countOutcome_partition (env : Nat → Option String × Except Unit NotifResponse)
    (l : List Nat) :
    countOutcome env SendState.success l + countOutcome env SendState.error l +
      countOutcome env SendState.rate_limit l + countOutcome env SendState.no_token l
      = l.length := by
  induction l with
  | nil => simp [countOutcome]
  | cons fid l ih =>
    cases ho : broadcastOutcome env fid <;>
      simp only [countOutcome, List.filter_cons, ho, List.length_cons] at ih ⊢ <;>
        simp <;> omega

/-- Batching does not change the aggregate fold: folding batch-by-batch
equals folding over the whole recipient list. -/
theorem batches_foldl (g : BroadcastResults → Nat → BroadcastResults) :
    ∀ (n : Nat) (l : List Nat), l.length ≤ n → ∀ c,
      (batchesOf l).foldl (fun c batch => batch.foldl g c) c = l.foldl g c
  | 0, l, h, c => by
    have h0 : l = [] := by
      rw [← List.length_eq_zero]; omega
    subst h0; simp [batchesOf]
  | n + 1, l, h, c => by
    cases hl : l with
    | nil => simp [batchesOf]
    | cons a t =>
      rw [← hl]
      have hne : l ≠ [] := by rw [hl]; simp
      rw [batchesOf_cons_eq _ hne, List.foldl_cons]
      rw [batches_foldl g n (l.drop 10) (by rw [hl]; simp [hl] at h ⊢; omega) _]
      rw [← List.foldl_append, List.take_append_drop]

/-- The broadcast counters are exactly the per-outcome recipient counts. -/
theorem sendBroadcastNotification_counts
    (env : Nat → Option String × Except Unit NotifResponse) (l : List Nat) :
    sendBroadcastNotification env l =
      { successful := countOutcome env SendState.success l
        failed := countOutcome env SendState.error l
        rateLimited := countOutcome env SendState.rate_limit l
        noToken := countOutcome env SendState.no_token l } := by
  unfold sendBroadcastNotification
  rw [batches_foldl _ l.length l (le_refl _) _, foldl_bump_counts]
  simp

/-- A recipient's outcome is `no_token` exactly when there is no stored
token, and then no delivery is attempted. -/
theorem broadcastOutcome_no_token_iff
    (env : Nat → Option String × Except Unit NotifResponse) (fid : Nat) :
    broadcastOutcome env fid = SendState.no_token ↔ (env fid).1 = none := by
  unfold broadcastOutcome sendFrameNotification
  cases h1 : (env fid).1 with
  | none => simp
  | some tok =>
    simp only
    cases h2 : (env fid).2 with
    | error e => simp
    | ok r =>
      simp only
      split_ifs <;> simp

/-- C8: broadcasting to 25 recipients issues exactly 3 batches of sizes 10,
10 and 5; each counter equals the number of recipients whose send ended
with that outcome (so each recipient is assigned exactly one outcome);
recipients without a stored token are exactly the `no_token` count; and the
four counters sum to 25. -/
theorem broadcast_batching_25 (env : Nat → Option String × Except Unit NotifResponse)
    (targetUsers : List Nat) (h : targetUsers.length = 25) :
    (batchesOf targetUsers).length = 3 ∧
    (batchesOf targetUsers).map List.length = [10, 10, 5] ∧
    sendBroadcastNotification env targetUsers =
      { successful := countOutcome env SendState.success targetUsers
        failed := countOutcome env SendState.error targetUsers
        rateLimited := countOutcome env SendState.rate_limit targetUsers
        noToken := countOutcome env SendState.no_token targetUsers } ∧
    (sendBroadcastNotification env targetUsers).noToken
      = (targetUsers.filter (fun fid => (env fid).1 = none)).length ∧
    (sendBroadcastNotification env targetUsers).successful +
      (sendBroadcastNotification env targetUsers).failed +
      (sendBroadcastNotification env targetUsers).rateLimited +
      (sendBroadcastNotification env targetUsers).noToken = 25 := by
  have hsizes := batchesOf_sizes_25 targetUsers h
  have hcounts := sendBroadcastNotification_counts env targetUsers
  refine ⟨?_, hsizes, hcounts, ?_, ?_⟩
  · have := congrArg List.length hsizes
    simpa using this
  · rw [hcounts]
    simp only [countOutcome]
    congr 1
    apply List.filter_congr
    intro fid _
    have := broadcastOutcome_no_token_iff env fid
    simp [this]
  · rw [hcounts]
    simpa [h] using countOutcome_partition env targetUsers

/-- Witness for C8: the 25 fids `0..24` with a concrete environment (every
third fid has no token, every fifth delivery throws, odd fids are
rate-limited). -/
theorem broadcast_batching_25_witness :
    (batchesOf (List.range 25)).length = 3 ∧
    (batchesOf (List.range 25)).map List.length = [10, 10, 5] ∧
    sendBroadcastNotification
      (fun fid => (if fid % 3 = 0 then none else some "t",
        if fid % 5 = 0 then Except.error ()
        else Except.ok { status := 200, parsedOk := true, rateLimitedCount := fid % 2 }))
      (List.range 25) =
      { successful := countOutcome
          (fun fid => (if fid % 3 = 0 then none else some "t",
            if fid % 5 = 0 then Except.error ()
            else Except.ok { status := 200, parsedOk := true, rateLimitedCount := fid % 2 }))
          SendState.success (List.range 25)
        failed := countOutcome
          (fun fid => (if fid % 3 = 0 then none else some "t",
            if fid % 5 = 0 then Except.error ()
            else Except.ok { status := 200, parsedOk := true, rateLimitedCount := fid % 2 }))
          SendState.error (List.range 25)
        rateLimited := countOutcome
          (fun fid => (if fid % 3 = 0 then none else some "t",
            if fid % 5 = 0 then Except.error ()
            else Except.ok { status := 200, parsedOk := true, rateLimitedCount := fid % 2 }))
          SendState.rate_limit (List.range 25)
        noToken := countOutcome
          (fun fid => (if fid % 3 = 0 then none else some "t",
            if fid % 5 = 0 then Except.error ()
            else Except.ok { status := 200, parsedOk := true, rateLimitedCount := fid % 2 }))
          SendState.no_token (List.range 25) } ∧
    (sendBroadcastNotification
      (fun fid => (if fid % 3 = 0 then none else some "t",
        if fid % 5 = 0 then Except.error ()
        else Except.ok { status := 200, parsedOk := true, rateLimitedCount := fid % 2 }))
      (List.range 25)).noToken
      = ((List.range 25).filter (fun fid =>
          (if fid % 3 = 0 then (none : Option String) else some "t") = none)).length ∧
    (sendBroadcastNotification
      (fun fid => (if fid % 3 = 0 then none else some "t",
        if fid % 5 = 0 then Except.error ()
        else Except.ok { status := 200, parsedOk := true, rateLimitedCount := fid % 2 }))
      (List.range 25)).successful +
      (sendBroadcastNotification
        (fun fid => (if fid % 3 = 0 then none else some "t",
          if fid % 5 = 0 then Except.error ()
          else Except.ok { status := 200, parsedOk := true, rateLimitedCount := fid % 2 }))
        (List.range 25)).failed +
      (sendBroadcastNotification
        (fun fid => (if fid % 3 = 0 then none else some "t",
          if fid % 5 = 0 then Except.error ()
          else Except.ok { status := 200, parsedOk := true, rateLimitedCount := fid % 2 }))
        (List.range 25)).rateLimited +
      (sendBroadcastNotification
        (fun fid => (if fid % 3 = 0 then none else some "t",
          if fid % 5 = 0 then Except.error ()
          else Except.ok { status := 200, parsedOk := true, rateLimitedCount := fid % 2 }))
        (List.range 25)).noToken = 25 :=
  broadcast_batching_25
    (fun fid => (if fid % 3 = 0 then none else some "t",
      if fid % 5 = 0 then Except.error ()
      else Except.ok { status := 200, parsedOk := true, rateLimitedCount := fid % 2 }))
    (List.range 25) (by simp)

/-! ### Dedup and sort lemmas for the scan merge -/

theorem matchKey_refl (a : Activity) : matchKey a a = true := by
  unfold matchKey
  split <;> simp

theorem matchKey_symm (a b : Activity) : matchKey a b = matchKey b a := by
  unfold matchKey
  rcases Decidable.em (a.type = ActivityType.nft_transfer ∧
      b.type = ActivityType.nft_transfer) with h | h
  · rw [if_pos h, if_pos ⟨h.2, h.1⟩]
    exact decide_eq_decide.mpr
      ⟨fun ⟨x1, x2, x3, x4⟩ => ⟨x1.symm, x2.symm, x3.symm, x4.symm⟩,
       fun ⟨x1, x2, x3, x4⟩ => ⟨x1.symm, x2.symm, x3.symm, x4.symm⟩⟩
  · rw [if_neg h, if_neg (fun hc => h ⟨hc.2, hc.1⟩)]
    exact decide_eq_decide.mpr
      ⟨fun ⟨x1, x2⟩ => ⟨x1.symm, x2.symm⟩, fun ⟨x1, x2⟩ => ⟨x1.symm, x2.symm⟩⟩

theorem matchedBy_append (s1 s2 : List Activity) (x : Activity) :
    matchedBy (s1 ++ s2) x = (matchedBy s1 x || matchedBy s2 x) := by
  simp [matchedBy, List.any_append]

theorem dedupFrom_append (seen l1 l2 : List Activity) :
    dedupFrom seen (l1 ++ l2) = dedupFrom seen l1 ++ dedupFrom (seen ++ l1) l2 := by
  induction l1 generalizing seen with
  | nil => simp [dedupFrom]
  | cons a l1 ih =>
    rw [List.cons_append]
    simp only [dedupFrom]
    by_cases h : matchedBy seen a
    · rw [if_pos h, if_pos h, ih]
      have ha : seen ++ [a] ++ l1 = seen ++ a :: l1 := by simp
      rw [ha]
    · rw [if_neg h, if_neg h, ih]
      have ha : seen ++ [a] ++ l1 = seen ++ a :: l1 := by simp
      rw [ha, List.cons_append]

theorem mem_of_mem_dedupFrom {seen l : List Activity} {a : Activity}
    (h : a ∈ dedupFrom seen l) : a ∈ l := by
  induction l generalizing seen with
  | nil => simp [dedupFrom] at h
  | cons b l ih =>
    simp only [dedupFrom] at h
    split at h
    · exact List.mem_cons_of_mem _ (ih h)
    · rcases List.mem_cons.mp h with rfl | h2
      · exact List.mem_cons_self _ _
      · exact List.mem_cons_of_mem _ (ih h2)

theorem not_matchedBy_of_mem_dedupFrom {seen l : List Activity} {a : Activity}
    (h : a ∈ dedupFrom seen l) : matchedBy seen a = false := by
  induction l generalizing seen with
  | nil => simp [dedupFrom] at h
  | cons b l ih =>
    simp only [dedupFrom] at h
    split at h
    · have h3 := ih h
      rw [matchedBy_append] at h3
      exact (Bool.or_eq_false_iff.mp h3).1
    next hb =>
      rcases List.mem_cons.mp h with rfl | h2
      · simpa using hb
      · have h3 := ih h2
        rw [matchedBy_append] at h3
        exact (Bool.or_eq_false_iff.mp h3).1

/-- Distinct surviving entries of the dedup never match each other. -/
theorem pairwise_dedupFrom (seen l : List Activity) :
    (dedupFrom seen l).Pairwise (fun x y => matchKey y x = false) := by
  induction l generalizing seen with
  | nil => simp [dedupFrom]
  | cons a l ih =>
    simp only [dedupFrom]
    split
    · exact ih _
    · refine List.Pairwise.cons ?_ (ih _)
      intro y hy
      have h3 := not_matchedBy_of_mem_dedupFrom hy
      rw [matchedBy_append] at h3
      have h4 := (Bool.or_eq_false_iff.mp h3).2
      simpa [matchedBy] using h4

/-- On a pairwise non-matching list the dedup reduces to a filter against
the already-seen prefix. -/
theorem dedupFrom_eq_filter {l : List Activity}
    (hpw : l.Pairwise (fun x y => matchKey y x = false)) (seen : List Activity) :
    dedupFrom seen l = l.filter (fun a => !matchedBy seen a) := by
  induction l generalizing seen with
  | nil => simp [dedupFrom]
  | cons a l ih =>
    have ha : ∀ b ∈ l, matchKey b a = false :=
      fun b hb => (List.pairwise_cons.mp hpw).1 b hb
    have hl := (List.pairwise_cons.mp hpw).2
    have hcongr : ∀ b ∈ l,
        (!matchedBy (seen ++ [a]) b) = (!matchedBy seen b) := by
      intro b hb
      rw [matchedBy_append]
      have hone : matchedBy [a] b = false := by
        simpa [matchedBy] using ha b hb
      simp [hone]
    simp only [dedupFrom]
    split
    next h =>
      have hfa : (!matchedBy seen a) = false := by simpa using h
      rw [ih hl, List.filter_cons, hfa]
      simp only [Bool.false_eq_true, if_false]
      exact List.filter_congr hcongr
    next h =>
      have hfa : (!matchedBy seen a) = true := by simpa using h
      rw [ih hl, List.filter_cons, hfa]
      simp only [if_true]
      exact congrArg (a :: ·) (List.filter_congr hcongr)

theorem insertTs_perm (a : Activity) (l : List Activity) :
    List.Perm (insertTs a l) (a :: l) := by
  induction l with
  | nil => rfl
  | cons b l ih =>
    simp only [insertTs]
    split
    · exact (ih.cons b).trans (List.Perm.swap a b l)
    · rfl

theorem sortDesc_perm (l : List Activity) : List.Perm (sortDesc l) l := by
  induction l with
  | nil => rfl
  | cons a l ih => exact (insertTs_perm a _).trans (ih.cons a)

theorem mem_insertTs {a b : Activity} {l : List Activity} :
    b ∈ insertTs a l ↔ b = a ∨ b ∈ l := by
  rw [(insertTs_perm a l).mem_iff, List.mem_cons]

theorem insertTs_sorted {l : List Activity}
    (h : l.Pairwise (fun x y => y.timestamp ≤ x.timestamp)) (a : Activity) :
    (insertTs a l).Pairwise (fun x y => y.timestamp ≤ x.timestamp) := by
  induction l with
  | nil => simp [insertTs]
  | cons b l ih =>
    rcases List.pairwise_cons.mp h with ⟨hb, hl⟩
    simp only [insertTs]
    split
    next hba =>
      refine List.pairwise_cons.mpr ⟨?_, ih hl⟩
      intro c hc
      rcases mem_insertTs.mp hc with rfl | hc2
      · omega
      · exact hb c hc2
    next hba =>
      refine List.pairwise_cons.mpr ⟨?_, h⟩
      intro c hc
      rcases List.mem_cons.mp hc with rfl | hc2
      · omega
      · have := hb c hc2
        omega

theorem sortDesc_sorted (l : List Activity) :
    (sortDesc l).Pairwise (fun x y => y.timestamp ≤ x.timestamp) := by
  induction l with
  | nil => simp [sortDesc]
  | cons a l ih => exact insertTs_sorted ih a

theorem insertTs_eq_cons {a : Activity} {l : List Activity}
    (h : ∀ b ∈ l, b.timestamp ≤ a.timestamp) : insertTs a l = a :: l := by
  cases l with
  | nil => rfl
  | cons b l =>
    simp only [insertTs]
    rw [if_neg]
    have := h b (List.mem_cons_self _ _)
    omega

theorem sortDesc_of_sorted {l : List Activity}
    (h : l.Pairwise (fun x y => y.timestamp ≤ x.timestamp)) : sortDesc l = l := by
  induction l with
  | nil => rfl
  | cons a l ih =>
    rcases List.pairwise_cons.mp h with ⟨ha, hl⟩
    simp only [sortDesc]
    rw [ih hl, insertTs_eq_cons ha]

/-- Stability of the sort with respect to filtering. -/
theorem filter_insertTs (p : Activity → Bool) {l : List Activity}
    (hs : l.Pairwise (fun x y => y.timestamp ≤ x.timestamp)) (a : Activity) :
    (insertTs a l).filter p =
      if p a then insertTs a (l.filter p) else l.filter p := by
  induction l with
  | nil =>
    simp only [insertTs, List.filter]
    cases hpa : p a <;> simp [insertTs]
  | cons b l ih =>
    rcases List.pairwise_cons.mp hs with ⟨hb, hl⟩
    simp only [insertTs]
    split
    next hba =>
      rw [List.filter_cons, List.filter_cons, ih hl]
      cases hpb : p b <;> cases hpa : p a
      · simp
      · simp
      · simp
      · have he : insertTs a (b :: l.filter p) = b :: insertTs a (l.filter p) := by
          simp only [insertTs]
          rw [if_pos hba]
        simp [he]
    next hba =>
      have hcons : ∀ q : List Activity,
          (∀ c ∈ q, c.timestamp ≤ a.timestamp) → insertTs a q = a :: q :=
        fun q hq => insertTs_eq_cons hq
      have hle : ∀ c ∈ (b :: l).filter p, c.timestamp ≤ a.timestamp := by
        intro c hc
        have hc2 := List.mem_of_mem_filter hc
        rcases List.mem_cons.mp hc2 with rfl | hc3
        · omega
        · have := hb c hc3
          omega
      rw [List.filter_cons]
      cases hpa : p a
      · simp only [Bool.false_eq_true, if_false]
      · simp only [if_true]
        rw [hcons _ hle, List.filter_cons]

theorem filter_sortDesc (p : Activity → Bool) (l : List Activity) :
    (sortDesc l).filter p = sortDesc (l.filter p) := by
  induction l with
  | nil => rfl
  | cons a l ih =>
    simp only [sortDesc]
    rw [filter_insertTs p (sortDesc_sorted l) a, ih, List.filter_cons]
    cases hpa : p a <;> simp [sortDesc]

theorem sortDesc_append_sortDesc (x y : List Activity) :
    sortDesc (x ++ sortDesc y) = sortDesc (x ++ y) := by
  induction x with
  | nil => simpa using sortDesc_of_sorted (sortDesc_sorted y)
  | cons a x ih =>
    rw [List.cons_append, List.cons_append]
    simp only [sortDesc]
    rw [ih]

/-- The merged activity list of a rescan that fetches the same transfer set
equals the previously stored list. -/
theorem scan_merge_activities_idempotent (news stored : List Activity) :
    sortDesc (dedupActivities (news ++ sortDesc (dedupActivities (news ++ stored))))
      = sortDesc (dedupActivities (news ++ stored)) := by
  have hsplit1 : dedupActivities (news ++ stored)
      = dedupFrom [] news ++ dedupFrom news stored := by
    have h := dedupFrom_append [] news stored
    simpa [dedupActivities] using h
  have hsplit2 : dedupActivities (news ++ sortDesc (dedupActivities (news ++ stored)))
      = dedupFrom [] news ++
        dedupFrom news (sortDesc (dedupActivities (news ++ stored))) := by
    have h := dedupFrom_append [] news (sortDesc (dedupActivities (news ++ stored)))
    simpa [dedupActivities] using h
  have hpair : (sortDesc (dedupActivities (news ++ stored))).Pairwise
      (fun x y => matchKey y x = false) := by
    have h0 : (dedupActivities (news ++ stored)).Pairwise
        (fun x y => matchKey y x = false) := pairwise_dedupFrom [] (news ++ stored)
    exact ((sortDesc_perm _).pairwise_iff
      (fun {x y} h => by rwa [matchKey_symm] at h)).mpr h0
  have hfilter : dedupFrom news (sortDesc (dedupActivities (news ++ stored)))
      = (sortDesc (dedupActivities (news ++ stored))).filter
          (fun a => !matchedBy news a) :=
    dedupFrom_eq_filter hpair news
  have hN : (dedupFrom [] news).filter (fun a => !matchedBy news a) = [] := by
    rw [List.filter_eq_nil_iff]
    intro a ha
    have hmem : a ∈ news := mem_of_mem_dedupFrom ha
    have hm : matchedBy news a = true := by
      simp only [matchedBy, List.any_eq_true]
      exact ⟨a, hmem, matchKey_refl a⟩
    simp [hm]
  have hT : (dedupFrom news stored).filter (fun a => !matchedBy news a)
      = dedupFrom news stored := by
    rw [List.filter_eq_self]
    intro a ha
    simp [not_matchedBy_of_mem_dedupFrom ha]
  rw [hsplit2, hfilter, filter_sortDesc, hsplit1, List.filter_append, hN, hT,
    List.nil_append, sortDesc_append_sortDesc]

/-- C3: rescanning with the same fetched transfer set is idempotent — the
merge of the previously merged record with the same new activities leaves
`activities`, `totalPoints`, `combinedPoints` and `level` exactly as the
first merge left them. -/
theorem scan_idempotent (news stored : List Activity) (questPoints : Int) :
    scanMergeRecord news (scanMergeRecord news stored questPoints).activities questPoints
      = scanMergeRecord news stored questPoints := by
  simp only [scanMergeRecord]
  rw [scan_merge_activities_idempotent]

/-- When every `pred`-element of the remaining list is matched by something
already seen, no `pred`-element survives the dedup. -/
theorem filter_dedupFrom_eq_nil (pred : Activity → Bool) :
    ∀ (seen l : List Activity),
      (∀ a ∈ l, pred a = true → matchedBy seen a = true) →
      (dedupFrom seen l).filter pred = []
  | _, [], _ => rfl
  | seen, b :: l, H => by
    have Hmono : ∀ a ∈ l, pred a = true → matchedBy (seen ++ [b]) a = true := by
      intro a ha hp
      rw [matchedBy_append]
      simp [H a (List.mem_cons_of_mem _ ha) hp]
    simp only [dedupFrom]
    split
    · exact filter_dedupFrom_eq_nil pred _ l Hmono
    next hb =>
      have hpb : pred b = false := by
        cases hpbv : pred b
        · rfl
        · exact absurd (H b (List.mem_cons_self _ _) hpbv) (by simpa using hb)
      rw [List.filter_cons, hpb]
      simp only [Bool.false_eq_true, if_false]
      exact filter_dedupFrom_eq_nil pred _ l Hmono

/-- When `pred`-elements match exactly the `pred`-elements of the list and
none is matched by the seen prefix, the dedup keeps exactly the first
`pred`-element. -/
theorem dedupFrom_filter_take_one (pred : Activity → Bool) :
    ∀ (seen l : List Activity),
      (∀ a ∈ l, ∀ b ∈ l, pred a = true → matchKey a b = pred b) →
      (∀ a ∈ l, pred a = true → matchedBy seen a = false) →
      (dedupFrom seen l).filter pred = (l.filter pred).take 1
  | _, [], _, _ => rfl
  | seen, b :: l, Hm, Hs => by
    have Hm' : ∀ a ∈ l, ∀ c ∈ l, pred a = true → matchKey a c = pred c :=
      fun a ha c hc hp =>
        Hm a (List.mem_cons_of_mem _ ha) c (List.mem_cons_of_mem _ hc) hp
    cases hpb : pred b with
    | true =>
      have hkept : matchedBy seen b = false := Hs b (List.mem_cons_self _ _) hpb
      have Hall : ∀ a ∈ l, pred a = true → matchedBy (seen ++ [b]) a = true := by
        intro a ha hp
        rw [matchedBy_append]
        have hk : matchKey a b = pred b :=
          Hm a (List.mem_cons_of_mem _ ha) b (List.mem_cons_self _ _) hp
        have hone : matchedBy [b] a = true := by
          simp [matchedBy, hk, hpb]
        simp [hone]
      simp only [dedupFrom]
      rw [if_neg (by simp [hkept])]
      rw [List.filter_cons, hpb, filter_dedupFrom_eq_nil pred _ l Hall]
      rw [List.filter_cons, hpb]
      simp
    | false =>
      have Hs' : ∀ a ∈ l, pred a = true → matchedBy (seen ++ [b]) a = false := by
        intro a ha hp
        rw [matchedBy_append]
        have h1 : matchedBy seen a = false := Hs a (List.mem_cons_of_mem _ ha) hp
        have hk : matchKey a b = pred b :=
          Hm a (List.mem_cons_of_mem _ ha) b (List.mem_cons_self _ _) hp
        have h2 : matchedBy [b] a = false := by
          simp [matchedBy, hk, hpb]
        simp [h1, h2]
      simp only [dedupFrom]
      split
      · rw [dedupFrom_filter_take_one pred _ l Hm' Hs']
        rw [List.filter_cons, hpb]
        simp
      · rw [List.filter_cons, hpb]
        simp only [Bool.false_eq_true, if_false]
        rw [dedupFrom_filter_take_one pred _ l Hm' Hs']
        rw [List.filter_cons, hpb]
        simp

/-- Under no NFT/non-NFT `(hash, direction)` collision, the dedup's match
test restricted to a fixed non-NFT key agrees with the key predicate. -/
theorem pairKey_matchKey {l : List Activity} (h : String) (d : Direction)
    (Hmix : ∀ a ∈ l, ∀ b ∈ l, a.type = ActivityType.nft_transfer →
      b.type ≠ ActivityType.nft_transfer →
      ¬(b.hash = a.hash ∧ b.direction = a.direction)) :
    ∀ a ∈ l, ∀ b ∈ l, pairKeyPred h d a = true →
      matchKey a b = pairKeyPred h d b := by
  intro a ha b hb hp
  simp only [pairKeyPred, Bool.and_eq_true, decide_eq_true_eq] at hp
  obtain ⟨⟨hant, hah⟩, had⟩ := hp
  unfold matchKey
  rw [if_neg (fun hc => hant hc.1)]
  by_cases hbn : b.type = ActivityType.nft_transfer
  · have hfalse : pairKeyPred h d b = false := by
      simp [pairKeyPred, hbn]
    rw [hfalse, decide_eq_false]
    rintro ⟨h1, h2⟩
    exact Hmix b hb a ha hbn hant ⟨by rw [h1, hah], by rw [h2, had]⟩
  · subst hah had
    simp [pairKeyPred, hbn]

/-- Under no NFT/non-NFT `(hash, direction)` collision, the dedup's match
test restricted to a fixed NFT key agrees with the key predicate. -/
theorem nftKey_matchKey {l : List Activity} (h : String) (d : Direction)
    (asset tok : Option String)
    (Hmix : ∀ a ∈ l, ∀ b ∈ l, a.type = ActivityType.nft_transfer →
      b.type ≠ ActivityType.nft_transfer →
      ¬(b.hash = a.hash ∧ b.direction = a.direction)) :
    ∀ a ∈ l, ∀ b ∈ l, nftKeyPred h d asset tok a = true →
      matchKey a b = nftKeyPred h d asset tok b := by
  intro a ha b hb hp
  simp only [nftKeyPred, Bool.and_eq_true, decide_eq_true_eq] at hp
  obtain ⟨⟨⟨⟨han, hah⟩, had⟩, haa⟩, hat⟩ := hp
  unfold matchKey
  by_cases hbn : b.type = ActivityType.nft_transfer
  · rw [if_pos ⟨han, hbn⟩]
    subst hah had haa hat
    simp [nftKeyPred, hbn, Bool.and_assoc]
  · rw [if_neg (fun hc => hbn hc.2)]
    have hfalse : nftKeyPred h d asset tok b = false := by
      simp [nftKeyPred, hbn]
    rw [hfalse, decide_eq_false]
    rintro ⟨h1, h2⟩
    exact Hmix a ha b hb han hbn ⟨by rw [h1, hah], by rw [h2, had]⟩

/-- C7 counterexample: the concatenation holds two NFT transfers (same
hash/direction/asset, token ids 1 and 2) and two identical non-NFT records
with the same `(hash, direction)`. The two non-NFT duplicates do not
collapse to one entry: both are removed (each matches the earlier NFT
record under the pair rule), so the merged list has zero non-NFT entries
for that key, not exactly one. -/
theorem dedup_collapse_cex :
    (([{ id := "n1", type := ActivityType.nft_transfer, description := "",
         timestamp := 5, points := 25, hash := "h", direction := Direction.outbound,
         asset := some "A", tokenId := some "1" },
       { id := "n2", type := ActivityType.nft_transfer, description := "",
         timestamp := 5, points := 25, hash := "h", direction := Direction.outbound,
         asset := some "A", tokenId := some "2" },
       { id := "x1", type := ActivityType.token_transfer, description := "",
         timestamp := 3, points := 10, hash := "h", direction := Direction.outbound,
         asset := none, tokenId := none },
       { id := "x2", type := ActivityType.token_transfer, description := "",
         timestamp := 3, points := 10, hash := "h", direction := Direction.outbound,
         asset := none, tokenId := none }] : List Activity).filter
        (pairKeyPred "h" Direction.outbound)).length = 2 ∧
    ((scanMergeRecord
      [{ id := "n1", type := ActivityType.nft_transfer, description := "",
         timestamp := 5, points := 25, hash := "h", direction := Direction.outbound,
         asset := some "A", tokenId := some "1" },
       { id := "n2", type := ActivityType.nft_transfer, description := "",
         timestamp := 5, points := 25, hash := "h", direction := Direction.outbound,
         asset := some "A", tokenId := some "2" },
       { id := "x1", type := ActivityType.token_transfer, description := "",
         timestamp := 3, points := 10, hash := "h", direction := Direction.outbound,
         asset := none, tokenId := none },
       { id := "x2", type := ActivityType.token_transfer, description := "",
         timestamp := 3, points := 10, hash := "h", direction := Direction.outbound,
         asset := none, tokenId := none }] [] 0).activities.filter
        (pairKeyPred "h" Direction.outbound)).length = 0 := by
  decide

/-- C7 amended: provided no NFT record shares `(hash, direction)` with a
non-NFT record in the concatenation, the merged list keeps exactly one
entry per populated non-NFT key `(hash, direction)` and per populated NFT
key `(hash, direction, asset, tokenId)` (count `min 1 n` where `n` counts
the key's records in the concatenation); and every activity built by the
scan's transfer processing carries the `POINTS_MAP` value of its type. -/
theorem dedup_collapse_by_key (news stored : List Activity) (questPoints : Int)
    (h : String) (d : Direction) (h2 : String) (d2 : Direction)
    (asset tok : Option String)
    (nftName : Option String) (t : Transfer) (dir : Direction)
    (Hmix : ∀ a ∈ news ++ stored, ∀ b ∈ news ++ stored,
      a.type = ActivityType.nft_transfer → b.type ≠ ActivityType.nft_transfer →
      ¬(b.hash = a.hash ∧ b.direction = a.direction)) :
    ((scanMergeRecord news stored questPoints).activities.filter
        (pairKeyPred h d)).length
      = min 1 (((news ++ stored).filter (pairKeyPred h d)).length) ∧
    ((scanMergeRecord news stored questPoints).activities.filter
        (nftKeyPred h2 d2 asset tok)).length
      = min 1 (((news ++ stored).filter (nftKeyPred h2 d2 asset tok)).length) ∧
    (processTransfer nftName t dir).points
      = POINTS_MAP (processTransfer nftName t dir).type := by
  have hperm : ∀ (p : Activity → Bool),
      ((scanMergeRecord news stored questPoints).activities.filter p).length
        = ((dedupActivities (news ++ stored)).filter p).length := by
    intro p
    simp only [scanMergeRecord]
    exact ((sortDesc_perm (dedupActivities (news ++ stored))).filter p).length_eq
  have hseen : ∀ (p : Activity → Bool), ∀ a ∈ news ++ stored,
      p a = true → matchedBy [] a = false := by
    intro p a _ _
    rfl
  refine ⟨?_, ?_, rfl⟩
  · rw [hperm]
    have hkey := dedupFrom_filter_take_one (pairKeyPred h d) [] (news ++ stored)
      (pairKey_matchKey h d Hmix) (hseen _)
    simp only [dedupActivities]
    rw [hkey, List.length_take]
  · rw [hperm]
    have hkey := dedupFrom_filter_take_one (nftKeyPred h2 d2 asset tok) [] (news ++ stored)
      (nftKey_matchKey h2 d2 asset tok Hmix) (hseen _)
    simp only [dedupActivities]
    rw [hkey, List.length_take]

/-- Witness for C7 (amended): two identical non-NFT records and one NFT
record with a different hash; no NFT/non-NFT key collision, so the two
duplicates collapse to exactly one stored entry. -/
theorem dedup_collapse_by_key_witness :
    ((scanMergeRecord
        [{ id := "x1", type := ActivityType.token_transfer, description := "",
           timestamp := 3, points := 10, hash := "h",
           direction := Direction.outbound, asset := none, tokenId := none },
         { id := "x2", type := ActivityType.token_transfer, description := "",
           timestamp := 3, points := 10, hash := "h",
           direction := Direction.outbound, asset := none, tokenId := none }]
        [{ id := "n1", type := ActivityType.nft_transfer, description := "",
           timestamp := 5, points := 25, hash := "g",
           direction := Direction.inbound, asset := some "A",
           tokenId := some "1" }]
        0).activities.filter (pairKeyPred "h" Direction.outbound)).length
      = min 1
        (((([{ id := "x1", type := ActivityType.token_transfer, description := "",
               timestamp := 3, points := 10, hash := "h",
               direction := Direction.outbound, asset := none, tokenId := none },
             { id := "x2", type := ActivityType.token_transfer, description := "",
               timestamp := 3, points := 10, hash := "h",
               direction := Direction.outbound, asset := none, tokenId := none }] :
            List Activity) ++
           ([{ id := "n1", type := ActivityType.nft_transfer, description := "",
               timestamp := 5, points := 25, hash := "g",
               direction := Direction.inbound, asset := some "A",
               tokenId := some "1" }] : List Activity)).filter
          (pairKeyPred "h" Direction.outbound)).length) ∧
    ((scanMergeRecord
        [{ id := "x1", type := ActivityType.token_transfer, description := "",
           timestamp := 3, points := 10, hash := "h",
           direction := Direction.outbound, asset := none, tokenId := none },
         { id := "x2", type := ActivityType.token_transfer, description := "",
           timestamp := 3, points := 10, hash := "h",
           direction := Direction.outbound, asset := none, tokenId := none }]
        [{ id := "n1", type := ActivityType.nft_transfer, description := "",
           timestamp := 5, points := 25, hash := "g",
           direction := Direction.inbound, asset := some "A",
           tokenId := some "1" }]
        0).activities.filter
        (nftKeyPred "g" Direction.inbound (some "A") (some "1"))).length
      = min 1
        (((([{ id := "x1", type := ActivityType.token_transfer, description := "",
               timestamp := 3, points := 10, hash := "h",
               direction := Direction.outbound, asset := none, tokenId := none },
             { id := "x2", type := ActivityType.token_transfer, description := "",
               timestamp := 3, points := 10, hash := "h",
               direction := Direction.outbound, asset := none, tokenId := none }] :
            List Activity) ++
           ([{ id := "n1", type := ActivityType.nft_transfer, description := "",
               timestamp := 5, points := 25, hash := "g",
               direction := Direction.inbound, asset := some "A",
               tokenId := some "1" }] : List Activity)).filter
          (nftKeyPred "g" Direction.inbound (some "A") (some "1"))).length) ∧
    (processTransfer none
        { category := "erc20", asset := some "USDC", toAddr := some "0xabc",
          hash := "h", blockNum := 3, tokenId := none } Direction.outbound).points
      = POINTS_MAP (processTransfer none
        { category := "erc20", asset := some "USDC", toAddr := some "0xabc",
          hash := "h", blockNum := 3, tokenId := none } Direction.outbound).type :=
  dedup_collapse_by_key
    [{ id := "x1", type := ActivityType.token_transfer, description := "",
       timestamp := 3, points := 10, hash := "h",
       direction := Direction.outbound, asset := none, tokenId := none },
     { id := "x2", type := ActivityType.token_transfer, description := "",
       timestamp := 3, points := 10, hash := "h",
       direction := Direction.outbound, asset := none, tokenId := none }]
    [{ id := "n1", type := ActivityType.nft_transfer, description := "",
       timestamp := 5, points := 25, hash := "g",
       direction := Direction.inbound, asset := some "A", tokenId := some "1" }]
    0 "h" Direction.outbound "g" Direction.inbound (some "A") (some "1") none
    { category := "erc20", asset := some "USDC", toAddr := some "0xabc",
      hash := "h", blockNum := 3, tokenId := none } Direction.outbound
    (by decide)

/-- C4 counterexample: the manual activity insert unshifts the new activity
regardless of its timestamp: inserting a timestamp-50 activity in front of
a stored timestamp-100 activity yields a list that is not ordered newest
first. -/
theorem activity_insert_order_cex :
    ¬ ((addUserActivity
      (some { address := "x"
              activities :=
                [{ id := "a1", type := ActivityType.token_transfer,
                   description := "", timestamp := 100, points := 10, hash := "h1",
                   direction := Direction.outbound, asset := none, tokenId := none }]
              totalPoints := 10, combinedPoints := 10, level := "Newbie" })
      "x"
      { id := "a2", type := ActivityType.token_transfer, description := "",
        timestamp := 50, points := 10, hash := "h2",
        direction := Direction.outbound, asset := none, tokenId := none }
      0).activities).Pairwise (fun a b => b.timestamp ≤ a.timestamp) := by
  decide

/-- C4 amended: the manual insert (`addUserActivity` on an existing record)
stores `(new :: old).take 100` — the new activity first regardless of
timestamp, capped at 100 — and adds the new activity's points to
`totalPoints` (which can therefore exceed the sum of the kept entries once
the cap drops one); the scan merge stores a list sorted newest-first by
timestamp with `totalPoints` equal to the sum of its entries, without any
100-entry cap. -/
theorem activities_write_shape :
    (∀ (data : StoredUser) (address : String) (act : Activity) (qp : Int),
      (addUserActivity (some data) address act qp).activities
          = (act :: data.activities).take 100 ∧
      (addUserActivity (some data) address act qp).activities.length ≤ 100 ∧
      (addUserActivity (some data) address act qp).totalPoints
          = data.totalPoints + act.points) ∧
    (∀ (news stored : List Activity) (qp : Int),
      ((scanMergeRecord news stored qp).activities).Pairwise
        (fun a b => b.timestamp ≤ a.timestamp) ∧
      (scanMergeRecord news stored qp).totalPoints
          = sumPoints ((scanMergeRecord news stored qp).activities)) := by
  constructor
  · intro data address act qp
    refine ⟨rfl, ?_, rfl⟩
    simp only [addUserActivity, List.length_take]
    omega
  · intro news stored qp
    exact ⟨sortDesc_sorted _, rfl⟩

end BlueSquare
